import Mathlib

/-!
Verification development for the gatewayops Python SDK
(`gatewayops/client.py`, `gatewayops/exceptions.py`, `gatewayops/types.py`).

The Python code is shallowly embedded: JSON scalar values become an
inductive `JVal`, Python dicts become association lists, the exception
classes of `exceptions.py` become the inductive `GatewayError` together
with constructor functions mirroring each class `__init__`, and the
client methods become pure Lean functions.  A Python exception that is
not part of the SDK taxonomy (e.g. `ValueError` from `int(...)`) is
modelled by `PyExn`.
-/

/-- A JSON scalar value as it appears inside an error `details` mapping or
a query-parameter dict.  Compound detail values do not occur in the
behaviours under verification. -/
inductive JVal where
  | jnull
  | jbool (b : Bool)
  | jint (n : Int)
  | jstr (s : String)
deriving DecidableEq, Repr

/-- Decimal digits to a natural number; `none` when a non-digit occurs. -/
def digitsToNat (cs : List Char) : Option Nat :=
  cs.foldl
    (fun acc c =>
      match acc with
      | none => none
      | some n => if c.isDigit then some (10 * n + (c.toNat - 48)) else none)
    (some 0)

/-- Leading and trailing whitespace removed, as Python `str.strip()`
does before `int` parses a string. -/
def pyStrip (cs : List Char) : List Char :=
  ((cs.dropWhile Char.isWhitespace).reverse.dropWhile Char.isWhitespace).reverse

/-- The Python builtin `int` applied to a string: surrounding whitespace is
ignored, an optional sign is followed by at least one decimal digit;
anything else raises `ValueError` (modelled as `none`). -/
def pyIntOfString (s : String) : Option Int :=
  match pyStrip s.toList with
  | [] => none
  | '+' :: rest =>
      if rest = [] then none else (digitsToNat rest).map Int.ofNat
  | '-' :: rest =>
      if rest = [] then none else (digitsToNat rest).map (fun n => -(n : Int))
  | cs => (digitsToNat cs).map Int.ofNat

/-- A Python exception outside the SDK error taxonomy. -/
inductive PyExn where
  | valueError
  | typeError
deriving DecidableEq, Repr

/-- The Python builtin `int` applied to a JSON scalar: ints pass through,
bools coerce to 0/1, strings are parsed, `None` raises `TypeError` and an
unparseable string raises `ValueError`. -/
def pyInt : JVal → Except PyExn Int
  | .jint n => .ok n
  | .jbool b => .ok (if b then 1 else 0)
  | .jstr s =>
      match pyIntOfString s with
      | some n => .ok n
      | none => .error .valueError
  | .jnull => .error .typeError

/-- Python `d.get(k)`: the value under `k`, or `None` when absent. -/
def dictGet (d : List (String × JVal)) (k : String) : JVal :=
  (d.lookup k).getD .jnull

/-- The fields stored by the base class `GatewayOpsError.__init__`
(exceptions.py lines 6-25): message, machine code, HTTP status and the
structured details mapping. -/
structure ErrData where
  message : String
  code : Option String
  status_code : Option Nat
  details : List (String × JVal)
deriving DecidableEq, Repr

/-- The error taxonomy of `exceptions.py`: one variant per exception
class, each carrying the base fields plus its class-specific fields. -/
inductive GatewayError where
  | base (e : ErrData)
  | authentication (e : ErrData)
  | rateLimit (e : ErrData) (retry_after : Option Int)
  | notFound (e : ErrData) (resource_type resource_id : Option String)
  | validation (e : ErrData) (field : Option String)
  | injectionDetected (e : ErrData) (pattern severity : JVal)
  | toolAccessDenied (e : ErrData) (mcp_server tool_name requires_approval : JVal)
  | server (e : ErrData)
  | timeout (e : ErrData) (timeout_seconds : Option Int)
  | network (e : ErrData)
deriving DecidableEq, Repr

/-- Base `GatewayOpsError(message, code, status_code, details)`:
`details or {}` substitutes the empty mapping for `None`. -/
def GatewayOpsError (message : String) (code : Option String)
    (status_code : Option Nat) (details : Option (List (String × JVal))) : GatewayError :=
  .base ⟨message, code, status_code, details.getD []⟩

/-- `AuthenticationError(message, code, details)`: status 401. -/
def AuthenticationError (message : String) (code : String)
    (details : Option (List (String × JVal))) : GatewayError :=
  .authentication ⟨message, some code, some 401, details.getD []⟩

/-- `RateLimitError(message, retry_after, details)`: code
"rate_limit_exceeded", status 429. -/
def RateLimitError (message : String) (retry_after : Option Int)
    (details : Option (List (String × JVal))) : GatewayError :=
  .rateLimit ⟨message, some "rate_limit_exceeded", some 429, details.getD []⟩ retry_after

/-- `NotFoundError(message, resource_type, resource_id, details)`: code
"not_found", status 404. -/
def NotFoundError (message : String) (resource_type resource_id : Option String)
    (details : Option (List (String × JVal))) : GatewayError :=
  .notFound ⟨message, some "not_found", some 404, details.getD []⟩ resource_type resource_id

/-- `ValidationError(message, field, details)`: code "validation_error",
status 400. -/
def ValidationError (message : String) (field : Option String)
    (details : Option (List (String × JVal))) : GatewayError :=
  .validation ⟨message, some "validation_error", some 400, details.getD []⟩ field

/-- `InjectionDetectedError(message, pattern, severity, details)`: code
"injection_detected", status 400. -/
def InjectionDetectedError (message : String) (pattern severity : JVal)
    (details : Option (List (String × JVal))) : GatewayError :=
  .injectionDetected ⟨message, some "injection_detected", some 400, details.getD []⟩
    pattern severity

/-- `ToolAccessDeniedError(message, mcp_server, tool_name,
requires_approval, details)`: code "tool_access_denied", status 403. -/
def ToolAccessDeniedError (message : String)
    (mcp_server tool_name requires_approval : JVal)
    (details : Option (List (String × JVal))) : GatewayError :=
  .toolAccessDenied ⟨message, some "tool_access_denied", some 403, details.getD []⟩
    mcp_server tool_name requires_approval

/-- `ServerError(message, code, details)`: status 500; the stored code is
`code or "server_error"`, so `None` and the empty string are both replaced
by "server_error". -/
def ServerError (message : String) (code : Option String)
    (details : Option (List (String × JVal))) : GatewayError :=
  .server ⟨message,
    some (match code with
      | none => "server_error"
      | some c => if c = "" then "server_error" else c),
    some 500, details.getD []⟩

/-- `TimeoutError(message, timeout_seconds, details)`: code "timeout",
status 408 (exceptions.py lines 125-135). -/
def TimeoutErrorGW (message : String) (timeout_seconds : Option Int)
    (details : Option (List (String × JVal))) : GatewayError :=
  .timeout ⟨message, some "timeout", some 408, details.getD []⟩ timeout_seconds

/-- `NetworkError(message, details)`: code "network_error", no HTTP
status (exceptions.py lines 138-146). -/
def NetworkError (message : String)
    (details : Option (List (String × JVal))) : GatewayError :=
  .network ⟨message, some "network_error", none, details.getD []⟩

/-- The base fields of any taxonomy variant. -/
def GatewayError.data : GatewayError → ErrData
  | .base e => e
  | .authentication e => e
  | .rateLimit e _ => e
  | .notFound e _ _ => e
  | .validation e _ => e
  | .injectionDetected e _ _ => e
  | .toolAccessDenied e _ _ _ => e
  | .server e => e
  | .timeout e _ => e
  | .network e => e

/-- The `status_code` attribute of a raised error. -/
def GatewayError.statusCode (e : GatewayError) : Option Nat := e.data.status_code

/-- The `code` attribute of a raised error. -/
def GatewayError.codeOf (e : GatewayError) : Option String := e.data.code

/-- Whether an error is the `NetworkError` variant. -/
def GatewayError.is_network : GatewayError → Bool
  | .network _ => true
  | _ => false

/-- Whether an error is the `TimeoutError` variant. -/
def GatewayError.is_timeout : GatewayError → Bool
  | .timeout _ _ => true
  | _ => false

/-- Whether an error is the `ServerError` variant. -/
def GatewayError.is_server : GatewayError → Bool
  | .server _ => true
  | _ => false

/-- The `error` object of a decoded error-response body: optional `code`,
`message` and `details` keys, matching the envelope
`{error: {code, message, details}}` consumed by the classifier. -/
structure ErrorInfo where
  code : Option String := none
  message : Option String := none
  details : Option (List (String × JVal)) := none
deriving DecidableEq, Repr

/-- A decoded JSON response body: the `error` key (absent or an envelope
object) plus the remaining top-level keys, which the classifier never
reads but the success path returns unchanged. -/
structure Body where
  error : Option ErrorInfo := none
  rest : List (String × JVal) := []
deriving DecidableEq, Repr

/-- `data.get("error", {}).get("code", "unknown")` (client.py line 170). -/
def Body.error_code (d : Body) : String := (d.error.getD {}).code.getD "unknown"

/-- `data.get("error", {}).get("message", "Unknown error")` (line 171). -/
def Body.error_message (d : Body) : String :=
  (d.error.getD {}).message.getD "Unknown error"

/-- `data.get("error", {}).get("details", {})` (line 172). -/
def Body.error_details (d : Body) : List (String × JVal) :=
  (d.error.getD {}).details.getD []

/-- `GatewayOps._raise_for_error(status_code, data)` (client.py lines
168-205): the status-major, code-minor error classifier.  A normal
return is the typed error the Python code raises; `.error` is an uncaught
Python exception escaping the classifier (the bare `int(...)` call on
`details["Retry-After"]` at line 191 can raise `ValueError`). -/
def GatewayOps.raise_for_error (status_code : Nat) (data : Body) :
    Except PyExn GatewayError :=
  let error_code := data.error_code
  let message := data.error_message
  let details := data.error_details
  if status_code = 401 then
    .ok (AuthenticationError message error_code (some details))
  else if status_code = 403 then
    if error_code = "tool_access_denied" then
      .ok (ToolAccessDeniedError message
        (dictGet details "mcp_server")
        (dictGet details "tool_name")
        ((details.lookup "requires_approval").getD (.jbool false))
        (some details))
    else
      .ok (GatewayOpsError message (some error_code) (some 403) (some details))
  else if status_code = 404 then
    .ok (NotFoundError message none none (some details))
  else if status_code = 429 then
    match details.lookup "Retry-After" with
    | none => .ok (RateLimitError message none (some details))
    | some v =>
        match pyInt v with
        | .ok n => .ok (RateLimitError message (some n) (some details))
        | .error x => .error x
  else if status_code = 400 then
    if error_code = "injection_detected" then
      .ok (InjectionDetectedError message
        (dictGet details "pattern")
        (dictGet details "severity")
        (some details))
    else
      .ok (ValidationError message none (some details))
  else if 500 ≤ status_code then
    .ok (ServerError message (some error_code) (some details))
  else
    .ok (GatewayOpsError message (some error_code) (some status_code) (some details))

/-- Whether the classifier produced a typed error (instead of crashing
with an uncaught Python exception). -/
def raisesTyped (r : Except PyExn GatewayError) : Bool :=
  match r with
  | .ok _ => true
  | .error _ => false

/-- The outcome of one dispatched call: a successful decoded body, a
raised typed SDK error, or an uncaught Python exception. -/
inductive Outcome (α : Type) where
  | success (a : α)
  | raised (e : GatewayError)
  | crashed (x : PyExn)
deriving DecidableEq, Repr

/-- `GatewayOps._handle_response(response)` (client.py lines 156-166) on a
response with the given status code and JSON-decode result (`none` when
`response.json()` raised): a non-decodable body becomes `{}`; a status
below 400 returns the decoded body as-is; a status of 400 or more is
handed to `_raise_for_error`. -/
def GatewayOps.handle_response (status_code : Nat) (decoded : Option Body) :
    Outcome Body :=
  let data := decoded.getD {}
  if 400 ≤ status_code then
    match GatewayOps.raise_for_error status_code data with
    | .ok e => .raised e
    | .error x => .crashed x
  else
    .success data

/-- What the transport adapter (`httpx.Client.request`) reported back:
a response (with its JSON-decode result), a deadline expiry
(`httpx.TimeoutException`), or any other transport failure
(`httpx.RequestError`). -/
inductive TransportOutcome where
  | response (status_code : Nat) (decoded : Option Body)
  | timeoutException (msg : String)
  | requestError (msg : String)
deriving DecidableEq, Repr

/-- `GatewayOps._request` (client.py lines 142-154) after the transport
returned: a received response goes through `_handle_response`;
`httpx.TimeoutException` is turned into `NetworkError("Request timed
out: ...")` and any other `httpx.RequestError` into `NetworkError("Network
error: ...")`. -/
def GatewayOps.request : TransportOutcome → Outcome Body
  | .response status decoded => GatewayOps.handle_response status decoded
  | .timeoutException m => .raised (NetworkError ("Request timed out: " ++ m) none)
  | .requestError m => .raised (NetworkError ("Network error: " ++ m) none)

/-- The mutable state of a root `GatewayOps` client that the trace scope
touches: `self._trace_context` (client.py line 65).  The remaining client
attributes (api key, base url, timeout, max_retries) are immutable after
`__init__` and never read by the operations verified here. -/
structure ClientState where
  trace_context : Option String
deriving DecidableEq, Repr

/-- The handle yielded by `GatewayOps.trace` (class `TraceContext`,
client.py lines 428-434). -/
structure TraceContext where
  trace_id : String
  name : String
deriving DecidableEq, Repr

/-- `GatewayOps.trace(name)` (client.py lines 99-118): the context
manager saves the current `_trace_context`, installs the freshly
generated `trace_id` (the uuid4 draw is a parameter of the model), runs
the caller body on the updated state, and in the `finally` block restores
the saved value whether the body returned or raised.  The body returns an
`Except` (a raised exception travels in `.error`) together with the
client state it left behind. -/
def GatewayOps.trace {E A : Type} (trace_id : String) (nm : String)
    (body : TraceContext → ClientState → Except E A × ClientState)
    (s : ClientState) : Except E A × ClientState :=
  let old_context := s.trace_context
  let s' : ClientState := { s with trace_context := some trace_id }
  let r := body ⟨trace_id, nm⟩ s'
  (r.1, { r.2 with trace_context := old_context })

/-- A trace span (types.py class `Span`); datetimes are kept as their wire
strings, attribute and event payloads as association lists. -/
structure Span where
  id : String
  trace_id : String
  parent_span_id : Option String := none
  name : String
  kind : String
  status : String
  start_time : String
  end_time : Option String := none
  duration_ms : Option Int := none
  attributes : Option (List (String × JVal)) := none
  events : Option (List (List (String × JVal))) := none
deriving DecidableEq, Repr

/-- A distributed trace (types.py class `Trace`). -/
structure Trace where
  id : String
  org_id : String
  api_key_id : Option String := none
  mcp_server : String
  operation : String
  status : String
  start_time : String
  end_time : Option String := none
  duration_ms : Option Int := none
  spans : Option (List Span) := none
  error_message : Option String := none
  cost : Option Float := none

/-- A constructed `TracePage` (types.py lines 115-132): after
`__init__`, `traces` is always a list, and the page carries only the
three stored pagination fields — `has_more` has no field here because the
Python class declares it as a `@property`, never stored. -/
structure TracePage where
  traces : List Trace
  total : Int
  limit : Int
  offset : Int

/-- The `has_more` property (types.py lines 123-126):
`self.offset + self.limit < self.total`, recomputed on every read. -/
def TracePage.has_more (p : TracePage) : Bool := p.offset + p.limit < p.total

/-- The keyword arguments reaching `TracePage(**data)`: each field either
absent or present, and a present `traces` either `null` or a list. -/
structure TracePageInput where
  traces : Option (Option (List Trace)) := none
  total : Option Int := none
  limit : Option Int := none
  offset : Option Int := none

/-- `TracePage.__init__` (types.py lines 128-132) followed by the pydantic
field defaults: `data.get("traces") is None` — true when the key is
absent or its value is `null` — replaces the value with `[]`; `total`,
`limit` and `offset` default to 0, 20 and 0. -/
def TracePage.construct (d : TracePageInput) : TracePage :=
  let traces :=
    match d.traces with
    | none => ([] : List Trace)
    | some none => []
    | some (some l) => l
  { traces := traces
    total := d.total.getD 0
    limit := d.limit.getD 20
    offset := d.offset.getD 0 }

/-- A cost breakdown row (types.py class `CostBreakdown`). -/
structure CostBreakdown where
  dimension : String
  value : String
  cost : Float
  request_count : Int

/-- A constructed `CostSummary` (types.py lines 147-158): only the nine
declared fields are stored; the legacy names are `@property` accessors
defined below, never fields. -/
structure CostSummary where
  total_cost : Float := 0.0
  total_requests : Int := 0
  avg_cost_per_request : Float := 0.0
  period : String := "month"
  start_date : Option String := none
  end_date : Option String := none
  by_server : Option (List CostBreakdown) := none
  by_team : Option (List CostBreakdown) := none
  by_tool : Option (List CostBreakdown) := none

/-- Legacy view `period_start` (types.py lines 161-163): reads
`start_date`. -/
def CostSummary.period_start (c : CostSummary) : Option String := c.start_date

/-- Legacy view `period_end` (types.py lines 165-167): reads
`end_date`. -/
def CostSummary.period_end (c : CostSummary) : Option String := c.end_date

/-- Legacy view `request_count` (types.py lines 169-171): reads
`total_requests`. -/
def CostSummary.request_count (c : CostSummary) : Int := c.total_requests

/-- The keyword arguments reaching `CostSummary(**data)`: every field
optional. -/
structure CostSummaryInput where
  total_cost : Option Float := none
  total_requests : Option Int := none
  avg_cost_per_request : Option Float := none
  period : Option String := none
  start_date : Option String := none
  end_date : Option String := none
  by_server : Option (List CostBreakdown) := none
  by_team : Option (List CostBreakdown) := none
  by_tool : Option (List CostBreakdown) := none

/-- `CostSummary(**data)` with the pydantic field defaults of types.py
lines 150-158 substituted for absent fields. -/
def CostSummary.construct (d : CostSummaryInput) : CostSummary :=
  { total_cost := d.total_cost.getD 0.0
    total_requests := d.total_requests.getD 0
    avg_cost_per_request := d.avg_cost_per_request.getD 0.0
    period := d.period.getD "month"
    start_date := d.start_date
    end_date := d.end_date
    by_server := d.by_server
    by_team := d.by_team
    by_tool := d.by_tool }

/-- An outgoing HTTP request as assembled by a sub-client before it is
handed to `GatewayOps._request`: method, path, optional JSON body and
optional query parameters. -/
structure HttpRequest where
  method : String
  path : String
  body : Option (List (String × JVal)) := none
  params : Option (List (String × JVal)) := none
deriving DecidableEq, Repr

/-- The request assembled by `TracesClient.list` (client.py lines
345-375): `params` starts as `{"limit": limit, "offset": offset}`, and
each of `mcp_server`, `operation`, `status` is added only when truthy (a
`None` or empty-string filter is omitted); the request is
`GET /v1/traces` with those query parameters. -/
def TracesClient.list_request (mcp_server operation status : Option String)
    (limit : Int) (offset : Int) : HttpRequest :=
  let params : List (String × JVal) := [("limit", .jint limit), ("offset", .jint offset)]
  let params :=
    match mcp_server with
    | some s => if s = "" then params else params ++ [("mcp_server", .jstr s)]
    | none => params
  let params :=
    match operation with
    | some s => if s = "" then params else params ++ [("operation", .jstr s)]
    | none => params
  let params :=
    match status with
    | some s => if s = "" then params else params ++ [("status", .jstr s)]
    | none => params
  { method := "GET", path := "/v1/traces", body := none, params := some params }

/-- The state of an `MCPClient` value (client.py lines 208-214): the
bound server name and the per-instance retry override.  The reference to
the root client is modelled by passing the root `ClientState`
alongside. -/
structure MCPClient where
  server : String
  retries : Int
deriving DecidableEq, Repr

/-- `MCPClient.with_trace(trace_name)` (client.py lines 237-240): the
body is a single `return self` — the result pairs the unchanged client
value with the unchanged root-client state. -/
def MCPClient.with_trace (self : MCPClient) (root : ClientState)
    (_trace_name : String) : MCPClient × ClientState :=
  (self, root)

/-- The value a request sends for a given query-parameter key, `none`
when the key is not sent. -/
def HttpRequest.param (r : HttpRequest) (k : String) : Option JVal :=
  (r.params.getD []).lookup k

/-- Claim C10: `MCPClient.with_trace(trace_name)` is a no-op — for every
client value, root-client state and trace name it returns the same client
unchanged, leaves the root state (in particular the active trace
context) untouched, and alters nothing. -/
theorem with_trace_noop (m : MCPClient) (root : ClientState) (nm : String) :
    MCPClient.with_trace m root nm = (m, root)
    ∧ (MCPClient.with_trace m root nm).1 = m
    ∧ (MCPClient.with_trace m root nm).2.trace_context = root.trace_context :=
  ⟨rfl, rfl, rfl⟩

/-- Claim C6: a `CostSummary` constructed with no fields has
`total_cost = 0.0`, `total_requests = 0`, `avg_cost_per_request = 0.0`
and `period = "month"`, and on every constructed instance the legacy
views `period_start`, `period_end` and `request_count` equal the
canonical fields `start_date`, `end_date` and `total_requests`. -/
theorem cost_summary_defaults_and_views :
    ((CostSummary.construct {}).total_cost = 0.0
      ∧ (CostSummary.construct {}).total_requests = 0
      ∧ (CostSummary.construct {}).avg_cost_per_request = 0.0
      ∧ (CostSummary.construct {}).period = "month")
    ∧ (∀ c : CostSummary,
        c.period_start = c.start_date
        ∧ c.period_end = c.end_date
        ∧ c.request_count = c.total_requests) :=
  ⟨⟨rfl, rfl, rfl, rfl⟩, fun _ => ⟨rfl, rfl, rfl⟩⟩

/-- Claim C5: `TracePage` construction replaces an absent or null raw
`traces` field by the empty list; `has_more` is always the derived value
`offset + limit < total`; the two concrete pages of the spec evaluate as
stated; and `offset + limit = total` forces `has_more = false`. -/
theorem trace_page_normalization :
    (∀ d : TracePageInput, (d.traces = none ∨ d.traces = some none) →
      (TracePage.construct d).traces = [])
    ∧ (∀ p : TracePage, p.has_more = decide (p.offset + p.limit < p.total))
    ∧ (TracePage.construct
        { traces := some none, total := some 100, limit := some 20, offset := some 0 }).has_more
        = true
    ∧ (TracePage.construct
        { traces := some (some []), total := some 20, limit := some 20, offset := some 0 }).has_more
        = false
    ∧ (∀ p : TracePage, p.offset + p.limit = p.total → p.has_more = false) := by
  refine ⟨?_, fun p => rfl, by decide, by decide, ?_⟩
  · intro d hd
    rcases hd with h | h <;> simp [TracePage.construct, h]
  · intro p h
    simp [TracePage.has_more, h]

/-- Witness for C5 at concrete inputs: a page built from a body with no
`traces` key exposes the empty list. -/
theorem trace_page_normalization_witness :
    (TracePage.construct { traces := none, total := some 5 }).traces = [] :=
  trace_page_normalization.1 { traces := none, total := some 5 } (Or.inl rfl)

/-- Claim C4: trace scopes nest and restore on every exit path — with the
client state starting with no active trace id, entering scope A installs
id `a`; a nested scope B installs `b`; after B exits (even when its body
raises, result `rB`) the active id is `a` again; and after A exits the
active id is `none` again. -/
theorem trace_scope_nesting (a b nA nB : String) (s0 : ClientState)
    (h : s0.trace_context = none) (rB : Except PyExn Unit) :
    ((GatewayOps.trace a nA
        (fun _ s => ((Except.ok s.trace_context : Except PyExn (Option String)), s)) s0).1
      = .ok (some a))
    ∧ ((GatewayOps.trace a nA (fun _ s =>
          GatewayOps.trace b nB
            (fun _ t => ((Except.ok t.trace_context : Except PyExn (Option String)), t)) s) s0).1
      = .ok (some b))
    ∧ ((GatewayOps.trace a nA (fun _ s =>
          let r := GatewayOps.trace b nB (fun _ t => (rB, t)) s
          ((Except.ok r.2.trace_context : Except PyExn (Option String)), r.2)) s0).1
      = .ok (some a))
    ∧ ((GatewayOps.trace a nA (fun _ s =>
          GatewayOps.trace b nB (fun _ t => (rB, t)) s) s0).2.trace_context = none) :=
  ⟨rfl, rfl, rfl, h⟩

/-- Witness for C4: concrete nested scopes with ids "a" and "b" whose
inner body raises; after the outer scope exits the active id is unset. -/
theorem trace_scope_nesting_witness :
    (GatewayOps.trace "a" "opA" (fun _ s =>
        GatewayOps.trace "b" "opB" (fun _ t => ((Except.error PyExn.valueError : Except PyExn Unit), t)) s)
      ⟨none⟩).2.trace_context = none :=
  (trace_scope_nesting "a" "b" "opA" "opB" ⟨none⟩ rfl (.error .valueError)).2.2.2

/-- Claim C2 (amended): every transport-level failure of a dispatched
request raises a `NetworkError` — including a deadline expiry, which also
raises `NetworkError` (with a "Request timed out" message) rather than the
`TimeoutError` variant — and the transport's native exception type never
propagates. -/
theorem transport_failure_network_error (m : String) :
    (GatewayOps.request (.timeoutException m) =
        .raised (NetworkError ("Request timed out: " ++ m) none)
      ∧ (NetworkError ("Request timed out: " ++ m) none).is_network = true
      ∧ (NetworkError ("Request timed out: " ++ m) none).is_timeout = false)
    ∧ (GatewayOps.request (.requestError m) =
        .raised (NetworkError ("Network error: " ++ m) none)
      ∧ (NetworkError ("Network error: " ++ m) none).is_network = true) :=
  ⟨⟨rfl, rfl, rfl⟩, rfl, rfl⟩

/-- Counterexample for C2 as stated: a deadline expiry is dispatched to a
`NetworkError`, not to the `TimeoutError` variant the claim requires. -/
theorem timeout_raises_network_not_timeout_cex :
    GatewayOps.request (.timeoutException "deadline exceeded") =
      .raised (NetworkError "Request timed out: deadline exceeded" none)
    ∧ (NetworkError "Request timed out: deadline exceeded" none).is_timeout = false :=
  ⟨rfl, rfl⟩

/-- Claim C3: evaluation of the classifier at the failing input — a 429
body whose `Retry-After` detail is "not-a-number" makes
`_raise_for_error` crash with an uncaught `ValueError` from `int(...)`
instead of raising a `RateLimitError` with `retry_after = None`. -/
theorem retry_after_parse_crash :
    GatewayOps.raise_for_error 429
      { error := some { code := some "rate_limit_exceeded",
                        message := some "Too many requests",
                        details := some [("Retry-After", JVal.jstr "not-a-number")] } } =
      .error PyExn.valueError := rfl

/-- Claim C7 (amended): the dispatcher treats a non-decodable JSON body
as the empty object; a status below 400 returns the decoded body as-is;
a status of 400 or more hands (status, decoded body) to the error
classifier — the classifier's typed error is raised, and in the one case
where classification itself fails (an unparseable `Retry-After` on a 429)
that uncaught exception propagates instead. -/
theorem handle_response_routing :
    (∀ status : Nat,
      GatewayOps.handle_response status none = GatewayOps.handle_response status (some {}))
    ∧ (∀ (status : Nat) (d : Body), status < 400 →
        GatewayOps.handle_response status (some d) = .success d)
    ∧ (∀ (status : Nat) (d : Body) (e : GatewayError), 400 ≤ status →
        GatewayOps.raise_for_error status d = .ok e →
        GatewayOps.handle_response status (some d) = .raised e)
    ∧ (∀ (status : Nat) (d : Body) (x : PyExn), 400 ≤ status →
        GatewayOps.raise_for_error status d = .error x →
        GatewayOps.handle_response status (some d) = .crashed x) := by
  refine ⟨fun _ => rfl, ?_, ?_, ?_⟩
  · intro status d h
    simp [GatewayOps.handle_response, Nat.not_le.mpr h]
  · intro status d e h he
    simp [GatewayOps.handle_response, h, he]
  · intro status d x h hx
    simp [GatewayOps.handle_response, h, hx]

/-- Witness for C7 at concrete inputs: a 200 response body passes through
unchanged. -/
theorem handle_response_routing_witness :
    GatewayOps.handle_response 200 (some { rest := [("content", JVal.jstr "x")] }) =
      .success { rest := [("content", JVal.jstr "x")] } :=
  handle_response_routing.2.1 200 { rest := [("content", JVal.jstr "x")] } (by decide)

/-- Counterexample for C7 as stated: on this 429 response the dispatcher
does not surface a typed error from the classifier — the classifier's
uncaught `ValueError` propagates. -/
theorem handle_response_crash_cex :
    GatewayOps.handle_response 429
      (some { error := some { details := some [("Retry-After", JVal.jstr "later")] } }) =
      .crashed PyExn.valueError := rfl

/-- Claim C9: for every status of 500 or more and every body, the
classifier raises a `ServerError` whose `status_code` attribute is 500
regardless of the actual HTTP status, and the classification result is
identical for any two statuses of 500 or more, so the original 5xx status
is not recoverable from the raised error. -/
theorem server_error_masks_status (status : Nat) (data : Body) (h5 : 500 ≤ status) :
    GatewayOps.raise_for_error status data =
      .ok (ServerError data.error_message (some data.error_code) (some data.error_details))
    ∧ (ServerError data.error_message (some data.error_code)
        (some data.error_details)).statusCode = some 500
    ∧ (∀ s2, 500 ≤ s2 →
        GatewayOps.raise_for_error status data = GatewayOps.raise_for_error s2 data) := by
  have key : ∀ s, 500 ≤ s → GatewayOps.raise_for_error s data =
      .ok (ServerError data.error_message (some data.error_code) (some data.error_details)) := by
    intro s hs
    have n1 : ¬ s = 401 := by omega
    have n3 : ¬ s = 403 := by omega
    have n4 : ¬ s = 404 := by omega
    have n9 : ¬ s = 429 := by omega
    have n0 : ¬ s = 400 := by omega
    simp [GatewayOps.raise_for_error, n1, n3, n4, n9, n0, hs]
  exact ⟨key status h5, rfl, fun s2 hs2 => (key status h5).trans (key s2 hs2).symm⟩

/-- Witness for C9: a 503 with a distinctive error code is reported as a
`ServerError` carrying status 500 and the body's code. -/
theorem server_error_masks_status_witness :
    GatewayOps.raise_for_error 503
      { error := some { code := some "upstream_unavailable",
                        message := some "Bad gateway" } } =
      .ok (ServerError "Bad gateway" (some "upstream_unavailable") (some [])) :=
  (server_error_masks_status 503
    { error := some { code := some "upstream_unavailable",
                      message := some "Bad gateway" } } (by decide)).1


/-- Claim C8: listing traces always sends `limit` and `offset` as query
parameters of `GET /v1/traces`, with no request body; each of the
`mcp_server`, `operation` and `status` filters is sent exactly when it is
supplied non-empty (a `None` or empty-string filter is omitted); and with
`limit = 10` and no filters the request carries exactly the parameters
`limit=10` and `offset=0`. -/
theorem traces_list_query_params (ms op st : Option String) (limit offset : Int) :
    (TracesClient.list_request ms op st limit offset).method = "GET"
    ∧ (TracesClient.list_request ms op st limit offset).path = "/v1/traces"
    ∧ (TracesClient.list_request ms op st limit offset).body = none
    ∧ (TracesClient.list_request ms op st limit offset).param "limit" = some (.jint limit)
    ∧ (TracesClient.list_request ms op st limit offset).param "offset" = some (.jint offset)
    ∧ (∀ s, ms = some s → s ≠ "" →
        (TracesClient.list_request ms op st limit offset).param "mcp_server" = some (.jstr s))
    ∧ ((ms = none ∨ ms = some "") →
        (TracesClient.list_request ms op st limit offset).param "mcp_server" = none)
    ∧ (∀ s, op = some s → s ≠ "" →
        (TracesClient.list_request ms op st limit offset).param "operation" = some (.jstr s))
    ∧ ((op = none ∨ op = some "") →
        (TracesClient.list_request ms op st limit offset).param "operation" = none)
    ∧ (∀ s, st = some s → s ≠ "" →
        (TracesClient.list_request ms op st limit offset).param "status" = some (.jstr s))
    ∧ ((st = none ∨ st = some "") →
        (TracesClient.list_request ms op st limit offset).param "status" = none)
    ∧ TracesClient.list_request none none none 10 0 =
        { method := "GET", path := "/v1/traces", body := none,
          params := some [("limit", .jint 10), ("offset", .jint 0)] } := by
  refine ⟨rfl, rfl, rfl, ?_, ?_, ?_, ?_, ?_, ?_, ?_, ?_, rfl⟩ <;>
    rcases ms with _ | s1 <;> rcases op with _ | s2 <;> rcases st with _ | s3 <;>
    intros <;>
    simp_all only [TracesClient.list_request, HttpRequest.param, Option.getD_some,
      Option.some.injEq, ne_eq, reduceCtorEq, or_self, or_false, false_or] <;>
    subst_vars <;>
    (try split_ifs) <;>
    simp_all [List.lookup]

/-- Witness for C8 at concrete inputs: a supplied non-empty `mcp_server`
filter is sent through as a query parameter. -/
theorem traces_list_query_params_witness :
    (TracesClient.list_request (some "filesystem") none none 50 0).param "mcp_server" =
      some (.jstr "filesystem") :=
  (traces_list_query_params (some "filesystem") none none 50 0).2.2.2.2.2.1
    "filesystem" rfl (by decide)

/-- Claim C1 (amended): for every failed response (status at least 400)
the classifier raises exactly the variant of the status-major, code-minor
decision table — 401 builds `AuthenticationError`; 403 with code
"tool_access_denied" builds `ToolAccessDeniedError` with `mcp_server`,
`tool_name` and `requires_approval` (default false) taken from details;
403 with any other code builds a generic error with status 403; 404
builds `NotFoundError`; 429 builds `RateLimitError` (with `retry_after`
from a parseable `Retry-After` detail, `None` when the key is absent, and
an uncaught parse failure when the value does not parse); 400 with code
"injection_detected" builds `InjectionDetectedError` with `pattern` and
`severity` from details; 400 with any other code builds
`ValidationError`; any status of 500 or more builds `ServerError` with
the computed error code passed to its constructor; any other status
builds a generic error with that status and code.  Missing body keys
default to code "unknown", the message "Unknown error" and empty details,
and the details mapping is copied through. -/
theorem classifier_decision_table (status : Nat) (data : Body) (h400 : 400 ≤ status) :
    (status = 401 →
      GatewayOps.raise_for_error status data =
        .ok (AuthenticationError data.error_message data.error_code (some data.error_details)))
    ∧ (status = 403 → data.error_code = "tool_access_denied" →
      GatewayOps.raise_for_error status data =
        .ok (ToolAccessDeniedError data.error_message
          (dictGet data.error_details "mcp_server")
          (dictGet data.error_details "tool_name")
          ((data.error_details.lookup "requires_approval").getD (JVal.jbool false))
          (some data.error_details)))
    ∧ (status = 403 → data.error_code ≠ "tool_access_denied" →
      GatewayOps.raise_for_error status data =
        .ok (GatewayOpsError data.error_message (some data.error_code) (some 403)
          (some data.error_details)))
    ∧ (status = 404 →
      GatewayOps.raise_for_error status data =
        .ok (NotFoundError data.error_message none none (some data.error_details)))
    ∧ (status = 429 → data.error_details.lookup "Retry-After" = none →
      GatewayOps.raise_for_error status data =
        .ok (RateLimitError data.error_message none (some data.error_details)))
    ∧ (∀ v n, status = 429 → data.error_details.lookup "Retry-After" = some v →
        pyInt v = .ok n →
      GatewayOps.raise_for_error status data =
        .ok (RateLimitError data.error_message (some n) (some data.error_details)))
    ∧ (∀ v x, status = 429 → data.error_details.lookup "Retry-After" = some v →
        pyInt v = .error x →
      GatewayOps.raise_for_error status data = .error x)
    ∧ (status = 400 → data.error_code = "injection_detected" →
      GatewayOps.raise_for_error status data =
        .ok (InjectionDetectedError data.error_message
          (dictGet data.error_details "pattern")
          (dictGet data.error_details "severity")
          (some data.error_details)))
    ∧ (status = 400 → data.error_code ≠ "injection_detected" →
      GatewayOps.raise_for_error status data =
        .ok (ValidationError data.error_message none (some data.error_details)))
    ∧ (500 ≤ status →
      GatewayOps.raise_for_error status data =
        .ok (ServerError data.error_message (some data.error_code) (some data.error_details)))
    ∧ (status ≠ 401 → status ≠ 403 → status ≠ 404 → status ≠ 429 → status ≠ 400 →
        status < 500 →
      GatewayOps.raise_for_error status data =
        .ok (GatewayOpsError data.error_message (some data.error_code) (some status)
          (some data.error_details))) := by
  refine ⟨?_, ?_, ?_, ?_, ?_, ?_, ?_, ?_, ?_, ?_, ?_⟩
  · intro h
    subst h
    simp [GatewayOps.raise_for_error]
  · intro h hc
    subst h
    simp [GatewayOps.raise_for_error, hc]
  · intro h hc
    subst h
    simp [GatewayOps.raise_for_error, hc]
  · intro h
    subst h
    simp [GatewayOps.raise_for_error]
  · intro h hl
    subst h
    simp [GatewayOps.raise_for_error, hl]
  · intro v n h hl hp
    subst h
    simp [GatewayOps.raise_for_error, hl, hp]
  · intro v x h hl hp
    subst h
    simp [GatewayOps.raise_for_error, hl, hp]
  · intro h hc
    subst h
    simp [GatewayOps.raise_for_error, hc]
  · intro h hc
    subst h
    simp [GatewayOps.raise_for_error, hc]
  · intro h5
    have n1 : ¬ status = 401 := by omega
    have n3 : ¬ status = 403 := by omega
    have n4 : ¬ status = 404 := by omega
    have n9 : ¬ status = 429 := by omega
    have n0 : ¬ status = 400 := by omega
    simp [GatewayOps.raise_for_error, n1, n3, n4, n9, n0, h5]
  · intro n1 n3 n4 n9 n0 h5
    have h5n : ¬ 500 ≤ status := by omega
    simp [GatewayOps.raise_for_error, n1, n3, n4, n9, n0, h5n]

/-- Witness for C1 at concrete inputs: a 403 with code
"tool_access_denied" and populated details builds the
`ToolAccessDeniedError` with the fields copied from details. -/
theorem classifier_decision_table_witness :
    GatewayOps.raise_for_error 403
      { error := some { code := some "tool_access_denied",
                        message := some "Tool requires approval",
                        details := some [("mcp_server", JVal.jstr "filesystem"),
                                         ("tool_name", JVal.jstr "delete_file"),
                                         ("requires_approval", JVal.jbool true)] } } =
      .ok (ToolAccessDeniedError "Tool requires approval"
        (JVal.jstr "filesystem") (JVal.jstr "delete_file") (JVal.jbool true)
        (some [("mcp_server", JVal.jstr "filesystem"),
               ("tool_name", JVal.jstr "delete_file"),
               ("requires_approval", JVal.jbool true)])) :=
  (classifier_decision_table 403
    { error := some { code := some "tool_access_denied",
                      message := some "Tool requires approval",
                      details := some [("mcp_server", JVal.jstr "filesystem"),
                                       ("tool_name", JVal.jstr "delete_file"),
                                       ("requires_approval", JVal.jbool true)] } }
    (by decide)).2.1 rfl rfl

/-- Counterexample for C1 as stated: this 429 response is
a failed HTTP response, yet the classifier does not raise any typed
variant — the `int(...)` parse of its `Retry-After` detail escapes as an
uncaught `ValueError`. -/
theorem classifier_table_crash_cex :
    GatewayOps.raise_for_error 429
      { error := some { code := some "rate_limit_exceeded",
                        message := some "slow down",
                        details := some [("Retry-After", JVal.jstr "soon")] } } =
      .error PyExn.valueError
    ∧ raisesTyped (GatewayOps.raise_for_error 429
        { error := some { code := some "rate_limit_exceeded",
                          message := some "slow down",
                          details := some [("Retry-After", JVal.jstr "soon")] } }) = false :=
  ⟨rfl, rfl⟩

/-- Witness for C2 at a concrete input: a connection failure surfaces as
the `NetworkError` variant. -/
theorem transport_failure_network_error_witness :
    GatewayOps.request (.requestError "connection refused") =
      .raised (NetworkError "Network error: connection refused" none) :=
  (transport_failure_network_error "connection refused").2.1

/-- Witness for C6 at a concrete instance: the legacy `period_start` view
reads the canonical `start_date`. -/
theorem cost_summary_defaults_and_views_witness :
    CostSummary.period_start { start_date := some "2025-12-01T00:00:00Z" } =
      some "2025-12-01T00:00:00Z" :=
  (cost_summary_defaults_and_views.2 { start_date := some "2025-12-01T00:00:00Z" }).1

/-- Witness for C10 at concrete inputs: `with_trace` hands back the very
client and root state it was given. -/
theorem with_trace_noop_witness :
    MCPClient.with_trace ⟨"filesystem", 3⟩ ⟨some "tid-1"⟩ "op" =
      (⟨"filesystem", 3⟩, ⟨some "tid-1"⟩) :=
  (with_trace_noop ⟨"filesystem", 3⟩ ⟨some "tid-1"⟩ "op").1
